import Mathlib

/-!
Verification development for the openclaw-kimi-code-auth repository.

The repository has two executable layers:

* `src/oauth.ts` — the in-process layer: `readKimiCliCredentials`,
  `isTokenExpiredOrNearExpiry`, `tryRefreshToken`, `loginKimiCodeOAuth`.
* `renew-kimi-token.sh` (shipped as an unnamed source file) — the cron
  scheduler: reads the Kimi credentials file, decides freshness with a
  300-second threshold, runs `kimi login` under `timeout`, and publishes the
  (re-read) token into `auth-profiles.json` via `mktemp` + `jq` + `mv`.

This file gives a shallow embedding of both layers.  File-system state is
passed explicitly: the token store file is an `Option` of parsed content, the
shared multi-profile document is an association list of profile entries.
JavaScript numbers and the fractional `expires_at` seconds are idealized as
exact rationals; times are integers of milliseconds (TypeScript layer) or
seconds (shell layer), matching each layer of the source.
-/

instance instDecEqExcept {ε α : Type} [DecidableEq ε] [DecidableEq α] :
    DecidableEq (Except ε α)
  | .error a, .error b =>
    if h : a = b then .isTrue (by rw [h]) else .isFalse (by simp [h])
  | .error _, .ok _ => .isFalse (by simp)
  | .ok _, .error _ => .isFalse (by simp)
  | .ok a, .ok b =>
    if h : a = b then .isTrue (by rw [h]) else .isFalse (by simp [h])

/-- Threshold from `src/oauth.ts` line 19:
`TOKEN_REFRESH_THRESHOLD_MS = 2 * 60 * 1000`. -/
def TOKEN_REFRESH_THRESHOLD_MS : ℤ := 2 * 60 * 1000

/-- The in-memory credential record produced by `readKimiCliCredentials`
(`KimiCodeOAuthCredentials` in `src/oauth.ts`).  `expires` is in
milliseconds since the epoch. -/
structure KimiCodeOAuthCredentials where
  access : String
  refresh : String
  expires : ℤ
  scope : Option String
  tokenType : Option String
deriving DecidableEq, Repr

/-- The parsed shape of the on-disk token store
`~/.kimi/credentials/kimi-code.json` as destructured by
`readKimiCliCredentials` (`src/oauth.ts` lines 101-107): every field is
optional.  `expires_at` is in seconds, possibly fractional, hence a
rational. -/
structure KimiCredsData where
  access_token : Option String
  refresh_token : Option String
  expires_at : Option ℚ
  scope : Option String
  token_type : Option String
deriving DecidableEq, Repr

/-- Content of the token store file as seen by `readKimiCliCredentials`:
blank content (`content.trim().length === 0`), content that `JSON.parse`
rejects, or parsed data. -/
inductive FileContent where
  | emptyContent : FileContent
  | malformed : FileContent
  | parsed : KimiCredsData → FileContent
deriving DecidableEq, Repr

/-- The inputs `readKimiCliCredentials` draws from the environment: whether
the resolved credentials path escapes the resolved home directory
(`!resolvedPath.startsWith(resolvedHome)` in `src/oauth.ts` line 83), and
the token store file, `none` when `existsSync` is false. -/
structure ReadInput where
  pathEscapesHome : Bool
  file : Option FileContent
deriving DecidableEq, Repr

/-- The only error `readKimiCliCredentials` can raise: the explicit throw on
path traversal (`src/oauth.ts` lines 83-85), re-thrown by the catch block at
lines 130-132.  All other failures are converted to `null`. -/
inductive ReadErr where
  | pathTraversal : ReadErr
deriving DecidableEq, Repr

/-- JavaScript falsiness of an optional string: `undefined` and `""` are
falsy (`!data.access_token` in `src/oauth.ts` line 110). -/
def jsFalsyStr (o : Option String) : Bool :=
  match o with
  | none => true
  | some s => s = ""

/-- JavaScript falsiness of an optional number: `undefined` and `0` are
falsy (`data.expires_at ? ... : ...` in `src/oauth.ts` line 124). -/
def jsFalsyNum (o : Option ℚ) : Bool :=
  match o with
  | none => true
  | some q => q = 0

/-- Shallow embedding of `readKimiCliCredentials` (`src/oauth.ts` lines
78-135).  `now` is `Date.now()` in milliseconds.  Step by step from the
source: throw on path traversal; `null` when the file is missing, blank, or
unparseable; `null` when `access_token` or `refresh_token` is missing or
empty; otherwise build the record, converting `expires_at` seconds to
milliseconds with `Math.floor(expires_at * 1000)` and defaulting a falsy
`expires_at` to `Date.now() + 3600 * 1000`.  (The JWT-shape test at lines
114-119 only warns and does not affect the result.) -/
def readKimiCliCredentials (inp : ReadInput) (now : ℤ) :
    Except ReadErr (Option KimiCodeOAuthCredentials) :=
  if inp.pathEscapesHome then .error .pathTraversal
  else
    match inp.file with
    | none => .ok none
    | some .emptyContent => .ok none
    | some .malformed => .ok none
    | some (.parsed d) =>
      if jsFalsyStr d.access_token || jsFalsyStr d.refresh_token then .ok none
      else
        .ok (some
          { access := d.access_token.getD ""
            refresh := d.refresh_token.getD ""
            expires :=
              if jsFalsyNum d.expires_at then now + 3600 * 1000
              else ⌊(d.expires_at.getD 0) * 1000⌋
            scope := d.scope
            tokenType := d.token_type })

/-- Shallow embedding of `isTokenExpiredOrNearExpiry` (`src/oauth.ts` lines
140-144): `timeLeft = expires - now`, near expiry iff
`timeLeft < TOKEN_REFRESH_THRESHOLD_MS`. -/
def isTokenExpiredOrNearExpiry (c : KimiCodeOAuthCredentials) (now : ℤ) : Bool :=
  c.expires - now < TOKEN_REFRESH_THRESHOLD_MS

example :
    readKimiCliCredentials
      ⟨false, some (.parsed ⟨some "a.b.c", some "d.e.f", some 1000, none, none⟩)⟩ 0 =
    .ok (some ⟨"a.b.c", "d.e.f", 1000000, none, none⟩) := by
  norm_num [readKimiCliCredentials, jsFalsyStr, jsFalsyNum, Rat.floor_def]
  exact fun h => absurd h (by decide)

example :
    readKimiCliCredentials ⟨false, some (.parsed ⟨some "a.b.c", some "d.e.f", some (1000.9 : ℚ), none, none⟩)⟩ 0 =
    .ok (some ⟨"a.b.c", "d.e.f", 1000900, none, none⟩) := by
  norm_num [readKimiCliCredentials, jsFalsyStr, jsFalsyNum, Rat.floor_def]
  exact fun h => absurd h (by decide)

/-- Kinds of launch failure for `spawn("kimi", ["login"], ...)` in
`src/oauth.ts` line 156 (binary not found, permission denied). -/
inductive SpawnErr where
  | enoent : SpawnErr
  | eacces : SpawnErr
deriving DecidableEq, Repr

/-- Shallow embedding of `tryRefreshToken` (`src/oauth.ts` lines 150-185).
The function spawns `kimi login`, always waits the 5-second timer, kills the
child, re-reads the token store, and resolves `true` exactly when the
re-read yields a record that is not expired or near expiry
(`newCreds && !isTokenExpiredOrNearExpiry(newCreds)` at line 171).

`spawnResult` models the launch of the external process.  When the launch
fails, Node delivers the failure outside the `try`/`catch` of
`tryRefreshToken`: a synchronous throw happens inside the `new Promise`
executor, which rejects the returned promise (the surrounding
`try`/`catch` only guards the synchronous prefix, and a rejected promise is
not caught by it); the asynchronous variant is an `error` event on the child
that has no listener.  Either way the failure escapes `tryRefreshToken`
instead of producing `false`, so the embedding propagates it as
`Except.error`.  `reread` is the result of the post-kill
`readKimiCliCredentials()` call and `now` the `Date.now()` of the post-kill
expiry check. -/
def tryRefreshToken (spawnResult : Except SpawnErr Unit)
    (reread : Option KimiCodeOAuthCredentials) (now : ℤ) : Except SpawnErr Bool :=
  match spawnResult with
  | .error e => .error e
  | .ok _ =>
    .ok (match reread with
         | some c => !(isTokenExpiredOrNearExpiry c now)
         | none => false)

/-- Errors that can escape `loginKimiCodeOAuth` (`src/oauth.ts` lines
199-270): the explicit `NotAuthenticated` throw at lines 225-227, and a
launch failure of the refresh process escalating through the un-guarded
`await tryRefreshToken(ctx.log)` at line 234 (the plugin `run` handler in
`src/index.ts` catches it only to rethrow). -/
inductive LoginErr where
  | notAuthenticated : LoginErr
  | refreshEscalated : SpawnErr → LoginErr
deriving DecidableEq, Repr

/-- Shallow embedding of `loginKimiCodeOAuth` (`src/oauth.ts` lines
199-270).  `c0` is the first `readKimiCliCredentials()` result, `c1` the
token store contents after the renewal attempt (used both by the post-kill
check inside `tryRefreshToken` and by the immediate re-read at line 238 —
the two reads are back to back in the source), `now0` and `now1` the clock
at the first and at the post-kill expiry check.  When the token is fresh, or
refresh is unconfirmed, the current record is returned unchanged (lines
262-269: "Return current credentials anyway"). -/
def loginKimiCodeOAuth (c0 : Option KimiCodeOAuthCredentials)
    (spawnResult : Except SpawnErr Unit) (c1 : Option KimiCodeOAuthCredentials)
    (now0 now1 : ℤ) : Except LoginErr KimiCodeOAuthCredentials :=
  match c0 with
  | none => .error .notAuthenticated
  | some c =>
    if isTokenExpiredOrNearExpiry c now0 then
      match tryRefreshToken spawnResult c1 now1 with
      | .error e => .error (.refreshEscalated e)
      | .ok true =>
        match c1 with
        | some c2 => .ok c2
        | none => .ok c
      | .ok false => .ok c
    else .ok c

/-- Truncation toward zero on the rationals.  This is how the renewal
script turns the possibly fractional `expires_at` into an integer: once via
`cut -d. -f1` on the decimal text (seconds), once via
`awk { printf "%d", $1 * 1000 }` (milliseconds). -/
def ratTrunc (q : ℚ) : ℤ :=
  if 0 ≤ q then ⌊q⌋ else ⌈q⌉

/-- A profile entry of the shared multi-profile document
`auth-profiles.json`, as built by the `jq` assignment in
`renew-kimi-token.sh` lines 125-134:
`\x7btype: "oauth", provider: "kimi-coding", access, refresh, expires\x7d`. -/
structure ProfileEntry where
  type : String
  provider : String
  access : String
  refresh : String
  expires : ℤ
deriving DecidableEq, Repr

/-- The `.profiles` object of `auth-profiles.json`, as a key-ordered
association list (JSON object keys are unique). -/
abbrev Profiles : Type := List (String × ProfileEntry)

/-- The `jq` update `.profiles["kimi-coding:default"] = entry`: replace the
value at an existing key in place, otherwise append the key at the end —
exactly the `jq` object-assignment semantics. -/
def setProfile (ps : Profiles) (k : String) (e : ProfileEntry) : Profiles :=
  match ps with
  | [] => [(k, e)]
  | p :: rest => if p.1 = k then (k, e) :: rest else p :: setProfile rest k e

/-- Lookup of a profile key in the document, the read-back direction of the
round trip. -/
def getProfile (ps : Profiles) (k : String) : Option ProfileEntry :=
  match ps with
  | [] => none
  | p :: rest => if p.1 = k then some p.2 else getProfile rest k

/-- The profile entry the script publishes, computed from the token store
contents re-read after `kimi login` (`renew-kimi-token.sh` lines 115-134):
`access_token`/`refresh_token` via `jq -r ... // empty`, and
`expires = awk trunc(expires_at * 1000)` with `expires_at // 0`. -/
def scriptEntry (d : KimiCredsData) : ProfileEntry :=
  { type := "oauth"
    provider := "kimi-coding"
    access := d.access_token.getD ""
    refresh := d.refresh_token.getD ""
    expires := ratTrunc ((d.expires_at.getD 0) * 1000) }

/-- Exit causes of one run of `renew-kimi-token.sh` (each is a logged
`ERROR` followed by `exit 1` in the source). -/
inductive ScriptErr where
  | credsMissing : ScriptErr
  | profilesMissing : ScriptErr
  | invalidExpiresAt : ScriptErr
  | tokensUnreadable : ScriptErr
deriving DecidableEq, Repr

/-- Successful exit causes of one run of `renew-kimi-token.sh`. -/
inductive CycleExit where
  | stillFresh : CycleExit
  | renewalCompleted : CycleExit
deriving DecidableEq, Repr

/-- Result of one scheduler cycle: the exit cause, the final state of
`auth-profiles.json`, and whether `kimi login` was invoked. -/
structure CycleResult where
  exit : Except ScriptErr CycleExit
  profiles : Option Profiles
  attemptedRenewal : Bool
deriving DecidableEq, Repr

/-- Shallow embedding of one run of `renew-kimi-token.sh` (the scheduler).
Inputs: the token store file `creds0` (parsed, `none` when absent), the
shared document `profiles0` (`none` when absent), the epoch seconds `now`
(`date +%s`), and `loginEffect`, the change `timeout 30 kimi login` makes to
the token store (identity when the killed process changed nothing).

Step by step from the source: fail when the token store file is missing
(lines 56-60); fail when `auth-profiles.json` is missing (lines 62-65, the
document is not created); read `expires_at // 0` truncated by `cut` and
fail when it is zero (lines 67-76); exit 0 with no action when
`remaining_seconds > 300` (lines 84-88); otherwise run `kimi login`,
re-read the tokens, fail when either token is empty (lines 115-123); else
write the full updated document to a temp file and `mv` it over
`auth-profiles.json` (lines 125-141). -/
def renewKimiTokenCycle (creds0 : Option KimiCredsData) (profiles0 : Option Profiles)
    (now : ℤ) (loginEffect : Option KimiCredsData → Option KimiCredsData) :
    CycleResult :=
  match creds0 with
  | none => { exit := .error .credsMissing, profiles := profiles0, attemptedRenewal := false }
  | some d0 =>
    match profiles0 with
    | none => { exit := .error .profilesMissing, profiles := none, attemptedRenewal := false }
    | some ps =>
      let ea : ℤ := ratTrunc (d0.expires_at.getD 0)
      if ea = 0 then
        { exit := .error .invalidExpiresAt, profiles := some ps, attemptedRenewal := false }
      else if ea - now > 300 then
        { exit := .ok .stillFresh, profiles := some ps, attemptedRenewal := false }
      else
        match loginEffect (some d0) with
        | none =>
          { exit := .error .tokensUnreadable, profiles := some ps, attemptedRenewal := true }
        | some d1 =>
          if d1.access_token.getD "" = "" ∨ d1.refresh_token.getD "" = "" then
            { exit := .error .tokensUnreadable, profiles := some ps, attemptedRenewal := true }
          else
            { exit := .ok .renewalCompleted
              profiles := some (setProfile ps "kimi-coding:default" (scriptEntry d1))
              attemptedRenewal := true }

/-- Path of the shared multi-profile document, from `renew-kimi-token.sh`
line 26: `AUTH_PROFILES="${HOME}/.openclaw/agents/main/agent/auth-profiles.json"`. -/
def authProfilesPath (home : String) : String :=
  home ++ "/.openclaw/agents/main/agent/auth-profiles.json"

/-- The directory `mktemp` with no arguments creates its file in: the value
of `TMPDIR`, whose default is `/tmp`. -/
def defaultTmpDir : String := "/tmp"

/-- The path produced by `TEMP_FILE=$(mktemp)` in `renew-kimi-token.sh`
line 112: a fresh name under the temporary directory, following the default
`mktemp` template `tmp.XXXXXXXXXX`. -/
def mktempPath (tmpdir : String) : String := tmpdir ++ "/tmp.XXXXXXXXXX"

/-- Characters of a path with the last `/`-separated component removed:
each character is kept while a `/` still follows it. -/
def dirnameChars : List Char → List Char
  | [] => []
  | c :: rest => if ('/' : Char) ∈ rest then c :: dirnameChars rest else []

/-- The directory component of a path (everything before the last `/`). -/
def dirname (p : String) : String := String.mk (dirnameChars p.data)

example : dirname "/tmp/tmp.XXXXXXXXXX" = "/tmp" := by decide

/-- Trace of the publish step of `renew-kimi-token.sh` (lines 112-141): the
updated document is produced by the `jq` assignment, written in full to the
`mktemp` file, and that file is then `mv`-ed over `AUTH_PROFILES`. -/
structure PublishTrace where
  tempPath : String
  tempContent : Profiles
  movedTo : String
  final : Profiles
deriving DecidableEq

/-- The publish step of `renew-kimi-token.sh` as a trace:
`TEMP_FILE=$(mktemp)`; `jq .profiles[key] = entry AUTH_PROFILES > TEMP_FILE`;
`mv TEMP_FILE AUTH_PROFILES`. -/
def publishProfiles (tmpdir home : String) (ps : Profiles) (k : String)
    (e : ProfileEntry) : PublishTrace :=
  { tempPath := mktempPath tmpdir
    tempContent := setProfile ps k e
    movedTo := authProfilesPath home
    final := setProfile ps k e }

/-- Round trip through the document update: looking up the key just set
returns the entry just written. -/
theorem getProfile_setProfile (ps : Profiles) (k : String) (e : ProfileEntry) :
    getProfile (setProfile ps k e) k = some e := by
  induction ps with
  | nil => simp [setProfile, getProfile]
  | cons p rest ih =>
    by_cases h : p.1 = k
    · simp [setProfile, getProfile, h]
    · simp [setProfile, getProfile, h, ih]

/-- C7: the TokenStore read never raises when the credentials file does not
exist, returns absent on structurally invalid JSON rather than propagating
a parse error, and the only error it raises is the path-security violation
when the resolved path escapes the expected base directory. -/
theorem read_errors_only_on_path_traversal (inp : ReadInput) (now : ℤ) :
    (readKimiCliCredentials inp now = .error .pathTraversal ↔
      inp.pathEscapesHome = true) ∧
    (inp.pathEscapesHome = false → inp.file = none →
      readKimiCliCredentials inp now = .ok none) ∧
    (inp.pathEscapesHome = false → inp.file = some .malformed →
      readKimiCliCredentials inp now = .ok none) := by
  obtain ⟨esc, file⟩ := inp
  cases esc with
  | true => simp [readKimiCliCredentials]
  | false =>
    cases file with
    | none => simp [readKimiCliCredentials]
    | some fc =>
      cases fc with
      | emptyContent => simp [readKimiCliCredentials]
      | malformed => simp [readKimiCliCredentials]
      | parsed d =>
        by_cases h : (jsFalsyStr d.access_token || jsFalsyStr d.refresh_token) = true
        · simp [readKimiCliCredentials, h]
        · simp [readKimiCliCredentials, h]

theorem read_errors_only_on_path_traversal_witness :
    readKimiCliCredentials ⟨false, none⟩ 17 = .ok none :=
  (read_errors_only_on_path_traversal ⟨false, none⟩ 17).2.1 rfl rfl

/-- C8: a token document whose `access_token` or `refresh_token` is missing
or empty reads back exactly like a missing file: the record is never valid
without both tokens. -/
theorem missing_tokens_treated_as_absent (d : KimiCredsData) (now : ℤ)
    (h : d.access_token = none ∨ d.access_token = some "" ∨
         d.refresh_token = none ∨ d.refresh_token = some "") :
    readKimiCliCredentials ⟨false, some (.parsed d)⟩ now =
      readKimiCliCredentials ⟨false, none⟩ now := by
  rcases h with h | h | h | h <;>
    simp [readKimiCliCredentials, jsFalsyStr, h]

theorem missing_tokens_treated_as_absent_witness :
    readKimiCliCredentials
      ⟨false, some (.parsed ⟨some "", some "d.e.f", some 100, none, none⟩)⟩ 5 =
      readKimiCliCredentials ⟨false, none⟩ 5 :=
  missing_tokens_treated_as_absent ⟨some "", some "d.e.f", some 100, none, none⟩ 5
    (Or.inr (Or.inl rfl))

/-- C10: valid tokens with `expires_at` missing or `0` do not read back as
absent and are not treated as expired: the record defaults `expires` to
`now + 3600 * 1000` milliseconds and classifies as fresh. -/
theorem missing_expires_defaults_one_hour (d : KimiCredsData) (now : ℤ)
    (ha : jsFalsyStr d.access_token = false) (hr : jsFalsyStr d.refresh_token = false)
    (he : d.expires_at = none ∨ d.expires_at = some 0) :
    readKimiCliCredentials ⟨false, some (.parsed d)⟩ now =
      .ok (some
        { access := d.access_token.getD "", refresh := d.refresh_token.getD ""
          expires := now + 3600 * 1000, scope := d.scope, tokenType := d.token_type }) ∧
    isTokenExpiredOrNearExpiry
      { access := d.access_token.getD "", refresh := d.refresh_token.getD ""
        expires := now + 3600 * 1000, scope := d.scope, tokenType := d.token_type }
      now = false := by
  constructor
  · rcases he with he | he <;>
      simp [readKimiCliCredentials, jsFalsyNum, ha, hr, he]
  · simp [isTokenExpiredOrNearExpiry, TOKEN_REFRESH_THRESHOLD_MS]

theorem missing_expires_defaults_one_hour_witness :
    readKimiCliCredentials
      ⟨false, some (.parsed ⟨some "a.b.c", some "d.e.f", none, none, none⟩)⟩ 0 =
      .ok (some ⟨"a.b.c", "d.e.f", 3600000, none, none⟩) ∧
    isTokenExpiredOrNearExpiry ⟨"a.b.c", "d.e.f", 3600000, none, none⟩ 0 = false := by
  have h := missing_expires_defaults_one_hour
    ⟨some "a.b.c", some "d.e.f", none, none, none⟩ 0 (by decide) (by decide)
    (Or.inl rfl)
  exact h

/-- C5: after the external renewal process is terminated, `tryRefreshToken`
re-reads the TokenStore and re-runs the expiry check, resolving `true`
exactly when a record is present and not expired or near expiry under the
in-process threshold. -/
theorem tryRefresh_true_iff_fresh_record
    (reread : Option KimiCodeOAuthCredentials) (now : ℤ) :
    tryRefreshToken (.ok ()) reread now = .ok true ↔
      ∃ c, reread = some c ∧ isTokenExpiredOrNearExpiry c now = false := by
  cases reread with
  | none => simp [tryRefreshToken]
  | some c => simp [tryRefreshToken]

theorem tryRefresh_true_iff_fresh_record_witness :
    tryRefreshToken (.ok ()) (some ⟨"a.b.c", "d.e.f", 10000000, none, none⟩) 0 =
      .ok true :=
  (tryRefresh_true_iff_fresh_record (some ⟨"a.b.c", "d.e.f", 10000000, none, none⟩) 0).mpr
    ⟨⟨"a.b.c", "d.e.f", 10000000, none, none⟩, rfl, by decide⟩

/-- C6: the claim says a launch failure of the external authentication
process yields `renewed = false` and the caller falls back to the previous
record.  In the code the launch failure instead escapes the `try`/`catch`
of `tryRefreshToken` (the rejection of the promise built in the executor is
not caught there, and `loginKimiCodeOAuth` awaits it unguarded), so the
error propagates out of `loginKimiCodeOAuth` instead of any fallback: at a
near-expiry record and an ENOENT launch failure the result is an error, not
the previous record. -/
theorem spawn_failure_escalates :
    loginKimiCodeOAuth (some ⟨"a.b.c", "d.e.f", 60000, none, none⟩) (.error .enoent)
      (some ⟨"a.b.c", "d.e.f", 60000, none, none⟩) 0 0 =
      .error (.refreshEscalated .enoent) := by
  decide

/-- C9: when the shared multi-profile document is absent, the cycle fails
with the publish precondition error, creates no document, and performs no
renewal — a controlled error exit, not a crash. -/
theorem publish_precondition_document_absent (d : KimiCredsData) (now : ℤ)
    (eff : Option KimiCredsData → Option KimiCredsData) :
    renewKimiTokenCycle (some d) none now eff =
      { exit := .error .profilesMissing, profiles := none, attemptedRenewal := false } :=
  rfl

/-- C2: when the renewal process is killed with no change to the token
store, the in-process attempt resolves `renewed = false`, the login flow
returns the previous (soon-to-expire) record, and the scheduler cycle
publishes only the data of that same unchanged record into the shared
document — no fresh entry. -/
theorem renewal_unconfirmed_keeps_previous_record
    (c : KimiCodeOAuthCredentials) (d : KimiCredsData) (ps : Profiles)
    (now0 now1 nowS : ℤ)
    (h0 : isTokenExpiredOrNearExpiry c now0 = true)
    (h1 : isTokenExpiredOrNearExpiry c now1 = true)
    (hea : ratTrunc (d.expires_at.getD 0) ≠ 0)
    (hrem : ¬ ratTrunc (d.expires_at.getD 0) - nowS > 300)
    (ha : ¬ d.access_token.getD "" = "")
    (hr : ¬ d.refresh_token.getD "" = "") :
    tryRefreshToken (.ok ()) (some c) now1 = .ok false ∧
    loginKimiCodeOAuth (some c) (.ok ()) (some c) now0 now1 = .ok c ∧
    getProfile
      ((renewKimiTokenCycle (some d) (some ps) nowS (fun s => s)).profiles.getD [])
      "kimi-coding:default" = some (scriptEntry d) := by
  refine ⟨?_, ?_, ?_⟩
  · simp [tryRefreshToken, h1]
  · simp [loginKimiCodeOAuth, tryRefreshToken, h0, h1]
  · simp [renewKimiTokenCycle, hea, hrem, ha, hr, getProfile_setProfile]

theorem renewal_unconfirmed_keeps_previous_record_witness :
    tryRefreshToken (.ok ()) (some ⟨"a.b.c", "d.e.f", 100000, none, none⟩) 0 =
      .ok false ∧
    loginKimiCodeOAuth (some ⟨"a.b.c", "d.e.f", 100000, none, none⟩) (.ok ())
      (some ⟨"a.b.c", "d.e.f", 100000, none, none⟩) 0 0 =
      .ok ⟨"a.b.c", "d.e.f", 100000, none, none⟩ ∧
    getProfile
      ((renewKimiTokenCycle (some ⟨some "A.B.C", some "D.E.F", some 100, none, none⟩)
          (some []) 0 (fun s => s)).profiles.getD [])
      "kimi-coding:default" =
      some (scriptEntry ⟨some "A.B.C", some "D.E.F", some 100, none, none⟩) :=
  renewal_unconfirmed_keeps_previous_record
    ⟨"a.b.c", "d.e.f", 100000, none, none⟩
    ⟨some "A.B.C", some "D.E.F", some 100, none, none⟩ [] 0 0 0
    (by decide) (by decide)
    (by norm_num [ratTrunc, Rat.floor_def])
    (by norm_num [ratTrunc, Rat.floor_def])
    (by decide) (by decide)

/-- C3: on the publish path, the profile entry read back from the shared
document carries `expires` equal to the floor of `expires_at * 1000` —
seconds to milliseconds by flooring, never rounding up. -/
theorem publish_roundtrip_expires_floor
    (d : KimiCredsData) (ps : Profiles) (nowS : ℤ) (q : ℚ)
    (hq : d.expires_at = some q) (hq0 : 0 ≤ q)
    (hea : ratTrunc q ≠ 0) (hrem : ¬ ratTrunc q - nowS > 300)
    (ha : ¬ d.access_token.getD "" = "") (hr : ¬ d.refresh_token.getD "" = "") :
    getProfile
      ((renewKimiTokenCycle (some d) (some ps) nowS (fun s => s)).profiles.getD [])
      "kimi-coding:default" = some (scriptEntry d) ∧
    (scriptEntry d).expires = ⌊q * 1000⌋ := by
  constructor
  · simp [renewKimiTokenCycle, hq, hea, hrem, ha, hr, getProfile_setProfile]
  · have h1000 : (0:ℚ) ≤ q * 1000 := mul_nonneg hq0 (by norm_num)
    simp [scriptEntry, hq, ratTrunc, h1000]

theorem publish_roundtrip_expires_floor_witness :
    getProfile
      ((renewKimiTokenCycle
          (some ⟨some "A.B.C", some "D.E.F", some (1000.9 : ℚ), none, none⟩)
          (some []) 1000 (fun s => s)).profiles.getD [])
      "kimi-coding:default" =
      some (scriptEntry ⟨some "A.B.C", some "D.E.F", some (1000.9 : ℚ), none, none⟩) ∧
    (scriptEntry ⟨some "A.B.C", some "D.E.F", some (1000.9 : ℚ), none, none⟩).expires =
      1000900 ∧
    ¬ (scriptEntry
        ⟨some "A.B.C", some "D.E.F", some (1000.9 : ℚ), none, none⟩).expires =
      1001000 := by
  have h := publish_roundtrip_expires_floor
    ⟨some "A.B.C", some "D.E.F", some (1000.9 : ℚ), none, none⟩ [] 1000 (1000.9 : ℚ)
    rfl (by norm_num)
    (by norm_num [ratTrunc, Rat.floor_def])
    (by norm_num [ratTrunc, Rat.floor_def])
    (by decide) (by decide)
  have he : (scriptEntry
      ⟨some "A.B.C", some "D.E.F", some (1000.9 : ℚ), none, none⟩).expires = 1000900 := by
    rw [h.2]
    norm_num [Rat.floor_def]
  exact ⟨h.1, he, by rw [he]; decide⟩

/-- C1 counterexample: the temporary file of the publish step is created by
a bare `mktemp`, whose directory is the system temporary directory, not the
directory of the shared document — at home `/home/user` the two directories
differ, refuting the claim that the temporary file is created in the same
directory as the shared document. -/
theorem mktemp_dir_ne_document_dir :
    ¬ dirname (publishProfiles defaultTmpDir "/home/user" [] "kimi-coding:default"
        ⟨"oauth", "kimi-coding", "a", "r", 0⟩).tempPath =
      dirname (authProfilesPath "/home/user") := by
  decide

/-- C1 amended: the publisher writes the full updated multi-profile
document to a temporary file created by `mktemp` in the system default
temporary directory — not the directory of the shared document — and then
moves that file over the original path in one `mv`; the final document is
exactly the fully updated content (so the replacement is a single atomic
rename only when the temporary directory is on the same filesystem as the
shared document). -/
theorem publish_full_document_then_rename (home : String) (ps : Profiles)
    (k : String) (e : ProfileEntry) :
    (publishProfiles defaultTmpDir home ps k e).tempContent = setProfile ps k e ∧
    (publishProfiles defaultTmpDir home ps k e).final =
      (publishProfiles defaultTmpDir home ps k e).tempContent ∧
    (publishProfiles defaultTmpDir home ps k e).movedTo = authProfilesPath home ∧
    dirname (publishProfiles defaultTmpDir home ps k e).tempPath = defaultTmpDir :=
  ⟨rfl, rfl, rfl, (by decide : dirname (mktempPath defaultTmpDir) = defaultTmpDir)⟩

/-- C4 counterexample: with remaining lifetime exactly equal to the
scheduler threshold (300 seconds), the scheduler does not classify the
token as fresh: it proceeds to a renewal attempt, refuting the claim that
both layers hold the fresh-inclusive boundary convention. -/
theorem scheduler_boundary_triggers_renewal :
    (renewKimiTokenCycle (some ⟨some "A.B.C", some "D.E.F", some 300, none, none⟩)
        (some []) 0 (fun s => s)).attemptedRenewal = true ∧
    ¬ (renewKimiTokenCycle (some ⟨some "A.B.C", some "D.E.F", some 300, none, none⟩)
        (some []) 0 (fun s => s)).exit = .ok .stillFresh := by
  have h300 : ratTrunc ((300 : ℚ)) = 300 := by norm_num [ratTrunc, Rat.floor_def]
  constructor <;> simp [renewKimiTokenCycle, h300]

/-- C4 amended: the two layers use different boundary conventions.  The
in-process check is fresh-inclusive: remaining lifetime exactly equal to
`TOKEN_REFRESH_THRESHOLD_MS` is not near expiry (only `remaining <
threshold` triggers).  The scheduler check instead puts the boundary on the
renew side: remaining lifetime exactly equal to its 300-second threshold
still triggers a renewal attempt. -/
theorem expiry_boundary_conventions :
    (∀ (c : KimiCodeOAuthCredentials) (now : ℤ),
        c.expires - now = TOKEN_REFRESH_THRESHOLD_MS →
        isTokenExpiredOrNearExpiry c now = false) ∧
    (∀ (d : KimiCredsData) (ps : Profiles) (now : ℤ)
        (eff : Option KimiCredsData → Option KimiCredsData),
        ratTrunc (d.expires_at.getD 0) ≠ 0 →
        ratTrunc (d.expires_at.getD 0) - now = 300 →
        (renewKimiTokenCycle (some d) (some ps) now eff).attemptedRenewal = true) := by
  constructor
  · intro c now h
    simp [isTokenExpiredOrNearExpiry, h]
  · intro d ps now eff hea hrem
    have hgt : ¬ ratTrunc (d.expires_at.getD 0) - now > 300 := by omega
    rcases heff : eff (some d) with _ | d1
    · simp [renewKimiTokenCycle, hea, hgt, heff]
    · by_cases htok : d1.access_token.getD "" = "" ∨ d1.refresh_token.getD "" = ""
      · simp [renewKimiTokenCycle, hea, hgt, heff, htok]
      · simp [renewKimiTokenCycle, hea, hgt, heff, htok]

theorem expiry_boundary_conventions_witness :
    isTokenExpiredOrNearExpiry ⟨"a.b.c", "d.e.f", 120000, none, none⟩ 0 = false ∧
    (renewKimiTokenCycle (some ⟨some "A.B.C", some "D.E.F", some 300, none, none⟩)
        (some []) 0 (fun s => s)).attemptedRenewal = true :=
  ⟨expiry_boundary_conventions.1 ⟨"a.b.c", "d.e.f", 120000, none, none⟩ 0 (by decide),
   expiry_boundary_conventions.2 ⟨some "A.B.C", some "D.E.F", some 300, none, none⟩
     [] 0 (fun s => s)
     (by norm_num [ratTrunc, Rat.floor_def])
     (by norm_num [ratTrunc, Rat.floor_def])⟩
